import Mathlib

set_option autoImplicit false

/-!
Shallow embedding of the code-requirement binary decoder from
`tugger-apple-codesign/src/code_requirement.rs`.

Bytes are modelled as `Nat` values (a real `u8` is `0 ≤ b < 256`; theorems add
that bound as a hypothesis where it matters).  Byte slices are `List Nat`.
Rust `Result` values are modelled by `PResult`, which has a third outcome
`panic` for Rust panics (out-of-range slice indexing `&data[a..b]`, `unwrap`
on `None`).  Borrowed `Cow<str>` / `Cow<[u8]>` payloads are modelled by the
byte lists they borrow.
-/

/-- Error type of the decoder, from `enum CodeRequirementError`.  The
`Scroll(scroll::Error)` variant's inner error (a short-read report from the
`scroll` crate's `pread_with`) is collapsed to a single constructor: no code
in this module inspects it. -/
inductive CodeRequirementError where
  | unknownOpCode : Nat → CodeRequirementError
  | unknownMatch : Nat → CodeRequirementError
  | scroll : CodeRequirementError
  | malformed : String → CodeRequirementError
deriving DecidableEq, Repr

/-- Outcome of running a piece of Rust code: a returned value, an error
returned by value, or a panic. -/
inductive PResult (α : Type) where
  | panic : PResult α
  | error : CodeRequirementError → PResult α
  | ok : α → PResult α
deriving DecidableEq, Repr

/-- The `?` operator: propagate errors (and panics) outward. -/
def PResult.bind {α β : Type} : PResult α → (α → PResult β) → PResult β
  | .panic, _ => .panic
  | .error e, _ => .error e
  | .ok a, f => f a

@[simp] theorem PResult.bind_panic {α β : Type} (f : α → PResult β) :
    PResult.bind .panic f = .panic := rfl

@[simp] theorem PResult.bind_error {α β : Type} (e : CodeRequirementError) (f : α → PResult β) :
    PResult.bind (.error e) f = .error e := rfl

@[simp] theorem PResult.bind_ok {α β : Type} (a : α) (f : α → PResult β) :
    PResult.bind (.ok a) f = f a := rfl

/-- Model of `data.pread_with::<u32>(0, scroll::BE)`: a big-endian `u32` read
at offset 0.  The `scroll` crate returns `Err(TooBig)` when fewer than 4 bytes
remain; reads at offset `o` are expressed as reads of `data.drop o`. -/
def preadU32BE (data : List Nat) : PResult Nat :=
  match data with
  | b0 :: b1 :: b2 :: b3 :: _ => .ok (b0 * 16777216 + b1 * 65536 + b2 * 256 + b3)
  | _ => .error .scroll

/-- Two's-complement interpretation of a big-endian `u32` bit pattern as `i32`. -/
def i32FromBE (n : Nat) : Int :=
  if n < 2147483648 then (n : Int) else (n : Int) - 4294967296

/-- Model of `data.pread_with::<i32>(0, scroll::BE)`. -/
def preadI32BE (data : List Nat) : PResult Int :=
  match data with
  | b0 :: b1 :: b2 :: b3 :: _ => .ok (i32FromBE (b0 * 16777216 + b1 * 65536 + b2 * 256 + b3))
  | _ => .error .scroll

/-- Two's-complement interpretation of a big-endian `u64` bit pattern as `i64`. -/
def i64FromBE (n : Nat) : Int :=
  if n < 9223372036854775808 then (n : Int) else (n : Int) - 18446744073709551616

/-- Model of `data.pread_with::<i64>(0, scroll::BE)`. -/
def preadI64BE (data : List Nat) : PResult Int :=
  match data with
  | b0 :: b1 :: b2 :: b3 :: b4 :: b5 :: b6 :: b7 :: _ =>
      .ok (i64FromBE (((((((b0 * 256 + b1) * 256 + b2) * 256 + b3) * 256 + b4) * 256
        + b5) * 256 + b6) * 256 + b7))
  | _ => .error .scroll

/-- Model of `fn read_data`, the padded length-prefixed block reader.
Rust slice expressions `&data[4..4 + length]` and `&data[offset..]` panic when
the upper (resp. lower) index exceeds the slice length; those panics are made
explicit here, in the order the source evaluates them. -/
def readData (data : List Nat) : PResult (List Nat × List Nat) :=
  PResult.bind (preadU32BE data) fun length =>
  if data.length < 4 + length then .panic
  else
    if (4 + length) % 4 = 0 then
      if data.length < 4 + length then .panic
      else .ok ((data.drop 4).take length, data.drop (4 + length))
    else
      if data.length < 4 + length + (4 - (4 + length) % 4) then .panic
      else .ok ((data.drop 4).take length, data.drop (4 + length + (4 - (4 + length) % 4)))

/-- Value in a code requirement expression, from `enum CodeRequirementValue`.
Both constructors carry the underlying bytes; `string` corresponds to
`String(Cow<str>)` holding those (all-ASCII) bytes as text. -/
inductive CodeRequirementValue where
  | string : List Nat → CodeRequirementValue
  | bytes : List Nat → CodeRequirementValue
deriving DecidableEq, Repr

/-- Rust `u8::is_ascii_alphanumeric`. -/
def isAsciiAlphanumeric (b : Nat) : Bool :=
  (48 ≤ b && b ≤ 57) || (65 ≤ b && b ≤ 90) || (97 ≤ b && b ≤ 122)

/-- Rust `u8::is_ascii_whitespace`: space, horizontal tab, line feed, form
feed, carriage return. -/
def isAsciiWhitespace (b : Nat) : Bool :=
  b = 32 || b = 9 || b = 10 || b = 12 || b = 13

/-- Rust `u8::is_ascii_punctuation`: the four ASCII punctuation ranges. -/
def isAsciiPunctuation (b : Nat) : Bool :=
  (33 ≤ b && b ≤ 47) || (58 ≤ b && b ≤ 64) || (91 ≤ b && b ≤ 96) || (123 ≤ b && b ≤ 126)

/-- The closure `is_ascii_printable` from `impl From<&[u8]> for CodeRequirementValue`. -/
def isAsciiPrintable (b : Nat) : Bool :=
  isAsciiAlphanumeric b || isAsciiWhitespace b || isAsciiPunctuation b

/-- Model of `impl From<&[u8]> for CodeRequirementValue`: classify a byte
block as printable text or opaque bytes. -/
def CodeRequirementValue.fromBytes (value : List Nat) : CodeRequirementValue :=
  if value.all isAsciiPrintable then .string value else .bytes value

/-- Validity predicate of `std::str::from_utf8`: standard UTF-8 wellformedness
(continuation bytes in `80..BF`, no overlong forms, no surrogates, at most
U+10FFFF). -/
def validUtf8 : List Nat → Bool
  | [] => true
  | c :: rest =>
    if c < 128 then validUtf8 rest
    else if 194 ≤ c && c ≤ 223 then
      match rest with
      | c1 :: rest2 => if 128 ≤ c1 && c1 ≤ 191 then validUtf8 rest2 else false
      | [] => false
    else if 224 ≤ c && c ≤ 239 then
      match rest with
      | c1 :: c2 :: rest2 =>
        if (if c = 224 then 160 ≤ c1 && c1 ≤ 191
            else if c = 237 then 128 ≤ c1 && c1 ≤ 159
            else 128 ≤ c1 && c1 ≤ 191) && (128 ≤ c2 && c2 ≤ 191)
        then validUtf8 rest2 else false
      | _ => false
    else if 240 ≤ c && c ≤ 244 then
      match rest with
      | c1 :: c2 :: c3 :: rest2 =>
        if (if c = 240 then 144 ≤ c1 && c1 ≤ 191
            else if c = 244 then 128 ≤ c1 && c1 ≤ 143
            else 128 ≤ c1 && c1 ≤ 191) && (128 ≤ c2 && c2 ≤ 191) && (128 ≤ c3 && c3 ≤ 191)
        then validUtf8 rest2 else false
      | _ => false
    else false

/-- Smallest seconds-since-epoch value representable as a `chrono` 0.4 naive
datetime (midnight of `NaiveDate::MIN`, year −262144). -/
def chronoMinSecs : Int := -8334632851200

/-- Largest seconds-since-epoch value representable as a `chrono` 0.4 naive
datetime (last second of `NaiveDate::MAX`, year 262143). -/
def chronoMaxSecs : Int := 8210298412799

/-- Model of `chrono::Utc.timestamp(secs, 0)` from the `chrono` 0.4 dependency:
`TimeZone::timestamp` calls `NaiveDateTime::from_timestamp_opt(secs, 0)` and
`unwrap`s the result, so it returns the instant (here: its seconds value) when
`secs` is within the representable datetime range and panics otherwise. -/
def chronoUtcTimestamp (secs : Int) : Option Int :=
  if chronoMinSecs ≤ secs && secs ≤ chronoMaxSecs then some secs else none

/-- Match-expression opcode, from `enum MatchType`. -/
inductive MatchType where
  | exists_
  | equal
  | contains
  | beginsWith
  | endsWith
  | lessThan
  | greaterThan
  | lessThanEqual
  | greaterThanEqual
  | on
  | before
  | after
  | onOrBefore
  | onOrAfter
  | absent
deriving DecidableEq, Repr

/-- Model of `impl TryFrom<u32> for MatchType`. -/
def MatchType.tryFrom (v : Nat) : PResult MatchType :=
  if v = 0 then .ok .exists_
  else if v = 1 then .ok .equal
  else if v = 2 then .ok .contains
  else if v = 3 then .ok .beginsWith
  else if v = 4 then .ok .endsWith
  else if v = 5 then .ok .lessThan
  else if v = 6 then .ok .greaterThan
  else if v = 7 then .ok .lessThanEqual
  else if v = 8 then .ok .greaterThanEqual
  else if v = 9 then .ok .on
  else if v = 10 then .ok .before
  else if v = 11 then .ok .after
  else if v = 12 then .ok .onOrBefore
  else if v = 13 then .ok .onOrAfter
  else if v = 14 then .ok .absent
  else .error (.unknownMatch v)

/-- Match expression, from `enum CodeRequirementMatchExpression`.  Timestamp
payloads (`DateTime<Utc>` with zero nanoseconds) are modelled by their
seconds-since-epoch value. -/
inductive CodeRequirementMatchExpression where
  | exists_
  | equal : CodeRequirementValue → CodeRequirementMatchExpression
  | contains : CodeRequirementValue → CodeRequirementMatchExpression
  | beginsWith : CodeRequirementValue → CodeRequirementMatchExpression
  | endsWith : CodeRequirementValue → CodeRequirementMatchExpression
  | lessThan : CodeRequirementValue → CodeRequirementMatchExpression
  | greaterThan : CodeRequirementValue → CodeRequirementMatchExpression
  | lessThanEqual : CodeRequirementValue → CodeRequirementMatchExpression
  | greaterThanEqual : CodeRequirementValue → CodeRequirementMatchExpression
  | on : Int → CodeRequirementMatchExpression
  | before : Int → CodeRequirementMatchExpression
  | after : Int → CodeRequirementMatchExpression
  | onOrBefore : Int → CodeRequirementMatchExpression
  | onOrAfter : Int → CodeRequirementMatchExpression
  | absent
deriving DecidableEq, Repr

/-- Model of `MatchType::parse_payload`.  The timestamp branches build
`chrono::Utc.timestamp(value, 0)` (a panic when out of range) and then return
`&data[8..]`, which cannot panic because the `i64` read guaranteed 8 bytes. -/
def MatchType.parsePayload (t : MatchType) (data : List Nat) :
    PResult (CodeRequirementMatchExpression × List Nat) :=
  match t with
  | .exists_ => .ok (.exists_, data)
  | .equal =>
      PResult.bind (readData data) fun vr =>
      .ok (.equal (CodeRequirementValue.fromBytes vr.1), vr.2)
  | .contains =>
      PResult.bind (readData data) fun vr =>
      .ok (.contains (CodeRequirementValue.fromBytes vr.1), vr.2)
  | .beginsWith =>
      PResult.bind (readData data) fun vr =>
      .ok (.beginsWith (CodeRequirementValue.fromBytes vr.1), vr.2)
  | .endsWith =>
      PResult.bind (readData data) fun vr =>
      .ok (.endsWith (CodeRequirementValue.fromBytes vr.1), vr.2)
  | .lessThan =>
      PResult.bind (readData data) fun vr =>
      .ok (.lessThan (CodeRequirementValue.fromBytes vr.1), vr.2)
  | .greaterThan =>
      PResult.bind (readData data) fun vr =>
      .ok (.greaterThan (CodeRequirementValue.fromBytes vr.1), vr.2)
  | .lessThanEqual =>
      PResult.bind (readData data) fun vr =>
      .ok (.lessThanEqual (CodeRequirementValue.fromBytes vr.1), vr.2)
  | .greaterThanEqual =>
      PResult.bind (readData data) fun vr =>
      .ok (.greaterThanEqual (CodeRequirementValue.fromBytes vr.1), vr.2)
  | .on =>
      PResult.bind (preadI64BE data) fun value =>
      match chronoUtcTimestamp value with
      | some dt => .ok (.on dt, data.drop 8)
      | none => .panic
  | .before =>
      PResult.bind (preadI64BE data) fun value =>
      match chronoUtcTimestamp value with
      | some dt => .ok (.before dt, data.drop 8)
      | none => .panic
  | .after =>
      PResult.bind (preadI64BE data) fun value =>
      match chronoUtcTimestamp value with
      | some dt => .ok (.after dt, data.drop 8)
      | none => .panic
  | .onOrBefore =>
      PResult.bind (preadI64BE data) fun value =>
      match chronoUtcTimestamp value with
      | some dt => .ok (.onOrBefore dt, data.drop 8)
      | none => .panic
  | .onOrAfter =>
      PResult.bind (preadI64BE data) fun value =>
      match chronoUtcTimestamp value with
      | some dt => .ok (.onOrAfter dt, data.drop 8)
      | none => .panic
  | .absent => .ok (.absent, data)

/-- Model of `CodeRequirementMatchExpression::from_bytes`: read the match-type
`u32` (the full word — no flag masking here), dispatch, parse the payload from
`&data[4..]`. -/
def matchExpressionFromBytes (data : List Nat) :
    PResult (CodeRequirementMatchExpression × List Nat) :=
  PResult.bind (preadU32BE data) fun typ =>
  PResult.bind (MatchType.tryFrom typ) fun t =>
  t.parsePayload (data.drop 4)

/-- Expression opcode, from `enum RequirementOpCode`. -/
inductive RequirementOpCode where
  | falseOp
  | trueOp
  | identifier
  | anchorApple
  | anchorCertificateHash
  | infoKeyValueLegacy
  | and
  | or
  | codeDirectoryHash
  | not
  | infoPlistExpression
  | certificateField
  | certificateTrusted
  | anchorTrusted
  | certificateGeneric
  | anchorAppleGeneric
  | entitlementsField
  | certificatePolicy
  | namedAnchor
  | namedCode
  | platform
  | notarized
  | certificateFieldDate
  | legacyDeveloperId
deriving DecidableEq, Repr

/-- Model of `impl TryFrom<u32> for RequirementOpCode`. -/
def RequirementOpCode.tryFrom (v : Nat) : PResult RequirementOpCode :=
  if v = 0 then .ok .falseOp
  else if v = 1 then .ok .trueOp
  else if v = 2 then .ok .identifier
  else if v = 3 then .ok .anchorApple
  else if v = 4 then .ok .anchorCertificateHash
  else if v = 5 then .ok .infoKeyValueLegacy
  else if v = 6 then .ok .and
  else if v = 7 then .ok .or
  else if v = 8 then .ok .codeDirectoryHash
  else if v = 9 then .ok .not
  else if v = 10 then .ok .infoPlistExpression
  else if v = 11 then .ok .certificateField
  else if v = 12 then .ok .certificateTrusted
  else if v = 13 then .ok .anchorTrusted
  else if v = 14 then .ok .certificateGeneric
  else if v = 15 then .ok .anchorAppleGeneric
  else if v = 16 then .ok .entitlementsField
  else if v = 17 then .ok .certificatePolicy
  else if v = 18 then .ok .namedAnchor
  else if v = 19 then .ok .namedCode
  else if v = 20 then .ok .platform
  else if v = 21 then .ok .notarized
  else if v = 22 then .ok .certificateFieldDate
  else if v = 23 then .ok .legacyDeveloperId
  else .error (.unknownOpCode v)

/-- Code requirement expression, from `enum CodeRequirementExpression`.
String (`Cow<str>`), digest (`Cow<[u8]>`) and OID (`Oid<&[u8]>`) payloads are
modelled by the bytes they borrow. -/
inductive CodeRequirementExpression where
  | falseExpr
  | trueExpr
  | identifier : List Nat → CodeRequirementExpression
  | anchorApple
  | anchorCertificateHash : Int → List Nat → CodeRequirementExpression
  | infoKeyValueLegacy : List Nat → List Nat → CodeRequirementExpression
  | and : CodeRequirementExpression → CodeRequirementExpression → CodeRequirementExpression
  | or : CodeRequirementExpression → CodeRequirementExpression → CodeRequirementExpression
  | codeDirectoryHash : List Nat → CodeRequirementExpression
  | not : CodeRequirementExpression → CodeRequirementExpression
  | infoPlistKeyField : List Nat → CodeRequirementMatchExpression → CodeRequirementExpression
  | certificateField :
      Int → List Nat → CodeRequirementMatchExpression → CodeRequirementExpression
  | certificateTrusted : Int → CodeRequirementExpression
  | anchorTrusted
  | certificateGeneric :
      Int → List Nat → CodeRequirementMatchExpression → CodeRequirementExpression
  | anchorAppleGeneric
  | entitlementsKey : List Nat → CodeRequirementMatchExpression → CodeRequirementExpression
  | certificatePolicy :
      Int → List Nat → CodeRequirementMatchExpression → CodeRequirementExpression
  | namedAnchor : List Nat → CodeRequirementExpression
  | namedCode : List Nat → CodeRequirementExpression
  | platform : Nat → CodeRequirementExpression
  | notarized
  | certificateFieldDate :
      Int → List Nat → CodeRequirementMatchExpression → CodeRequirementExpression
  | legacyDeveloperId
deriving DecidableEq, Repr

/-- Model of the `RequirementOpCode::AnchorCertificateHash` arm of
`RequirementOpCode::parse_payload`: signed 32-bit slot, `u32` digest length at
offset 4, then `&data[8..8 + digest_length]` (a panic when the slice is too
short) with no alignment padding. -/
def anchorCertificateHashPayload (data : List Nat) :
    PResult (CodeRequirementExpression × List Nat) :=
  PResult.bind (preadI32BE data) fun slot =>
  PResult.bind (preadU32BE (data.drop 4)) fun digestLength =>
  if data.length < 8 + digestLength then .panic
  else
    .ok (.anchorCertificateHash slot ((data.drop 8).take digestLength),
      data.drop (8 + digestLength))

/-- Model of `RequirementOpCode::parse_payload`.  The source recurses into
`CodeRequirementExpression::from_bytes` for And/Or/Not; that mutual recursion
is broken by passing the expression decoder in as the `fromBytes` argument.
Reads of the slot `i32` at offset 0 followed by `read_data(&data[4..])` are
expressed with `data.drop 4` (and `&data[4..]` itself cannot panic there,
because the preceding 4-byte read guaranteed the length). -/
def RequirementOpCode.parsePayload (op : RequirementOpCode)
    (fromBytes : List Nat → PResult (CodeRequirementExpression × List Nat))
    (data : List Nat) : PResult (CodeRequirementExpression × List Nat) :=
  match op with
  | .falseOp => .ok (.falseExpr, data)
  | .trueOp => .ok (.trueExpr, data)
  | .identifier =>
      PResult.bind (readData data) fun vr =>
      if validUtf8 vr.1 then .ok (.identifier vr.1, vr.2)
      else .error (.malformed "identifier value not a UTF-8 string")
  | .anchorApple => .ok (.anchorApple, data)
  | .anchorCertificateHash => anchorCertificateHashPayload data
  | .infoKeyValueLegacy =>
      PResult.bind (readData data) fun kr =>
      if validUtf8 kr.1 then
        PResult.bind (readData kr.2) fun vr =>
        if validUtf8 vr.1 then .ok (.infoKeyValueLegacy kr.1 vr.1, vr.2)
        else .error (.malformed "info value not a UTF-8 string")
      else .error (.malformed "info key not a UTF-8 string")
  | .and =>
      PResult.bind (fromBytes data) fun ar =>
      PResult.bind (fromBytes ar.2) fun br =>
      .ok (.and ar.1 br.1, br.2)
  | .or =>
      PResult.bind (fromBytes data) fun ar =>
      PResult.bind (fromBytes ar.2) fun br =>
      .ok (.or ar.1 br.1, br.2)
  | .codeDirectoryHash =>
      PResult.bind (readData data) fun vr =>
      .ok (.codeDirectoryHash vr.1, vr.2)
  | .not =>
      PResult.bind (fromBytes data) fun er =>
      .ok (.not er.1, er.2)
  | .infoPlistExpression =>
      PResult.bind (readData data) fun kr =>
      if validUtf8 kr.1 then
        PResult.bind (matchExpressionFromBytes kr.2) fun mr =>
        .ok (.infoPlistKeyField kr.1 mr.1, mr.2)
      else .error (.malformed "key is not valid UTF-8")
  | .certificateField =>
      PResult.bind (preadI32BE data) fun slot =>
      PResult.bind (readData (data.drop 4)) fun fr =>
      if validUtf8 fr.1 then
        PResult.bind (matchExpressionFromBytes fr.2) fun mr =>
        .ok (.certificateField slot fr.1 mr.1, mr.2)
      else .error (.malformed "certificate field is not valid UTF-8")
  | .certificateTrusted =>
      PResult.bind (preadI32BE data) fun slot =>
      .ok (.certificateTrusted slot, data.drop 4)
  | .anchorTrusted => .ok (.anchorTrusted, data)
  | .certificateGeneric =>
      PResult.bind (preadI32BE data) fun slot =>
      PResult.bind (readData (data.drop 4)) fun oidr =>
      PResult.bind (matchExpressionFromBytes oidr.2) fun mr =>
      .ok (.certificateGeneric slot oidr.1 mr.1, mr.2)
  | .anchorAppleGeneric => .ok (.anchorAppleGeneric, data)
  | .entitlementsField =>
      PResult.bind (readData data) fun kr =>
      if validUtf8 kr.1 then
        PResult.bind (matchExpressionFromBytes kr.2) fun mr =>
        .ok (.entitlementsKey kr.1 mr.1, mr.2)
      else .error (.malformed "entitlement key is not UTF-8")
  | .certificatePolicy =>
      PResult.bind (preadI32BE data) fun slot =>
      PResult.bind (readData (data.drop 4)) fun oidr =>
      PResult.bind (matchExpressionFromBytes oidr.2) fun mr =>
      .ok (.certificatePolicy slot oidr.1 mr.1, mr.2)
  | .namedAnchor =>
      PResult.bind (readData data) fun nr =>
      if validUtf8 nr.1 then .ok (.namedAnchor nr.1, nr.2)
      else .error (.malformed "named anchor isn\x27t UTF-8")
  | .namedCode =>
      PResult.bind (readData data) fun nr =>
      if validUtf8 nr.1 then .ok (.namedCode nr.1, nr.2)
      else .error (.malformed "named code isn\x27t UTF-8")
  | .platform =>
      PResult.bind (preadU32BE data) fun value =>
      .ok (.platform value, data.drop 4)
  | .notarized => .ok (.notarized, data)
  | .certificateFieldDate =>
      PResult.bind (preadI32BE data) fun slot =>
      PResult.bind (readData (data.drop 4)) fun oidr =>
      PResult.bind (matchExpressionFromBytes oidr.2) fun mr =>
      .ok (.certificateFieldDate slot oidr.1 mr.1, mr.2)
  | .legacyDeveloperId => .ok (.legacyDeveloperId, data)

/-- Model of `CodeRequirementExpression::from_bytes`: read the opcode word,
mask off the high flag byte (`OPCODE_VALUE_MASK = 0x00ffffff`; the flags are
read and discarded), dispatch via `RequirementOpCode::try_from`, and parse the
payload from `&data[4..]`.  `fuel` only bounds the And/Or/Not recursion depth:
every recursive call strictly shrinks the input, so the `data.length + 1` fuel
supplied by `expressionFromBytes` is never exhausted. -/
def expressionFromBytesF : Nat → List Nat → PResult (CodeRequirementExpression × List Nat)
  | 0, _ => .panic
  | fuel + 1, data =>
    PResult.bind (preadU32BE data) fun opcodeRaw =>
    PResult.bind (RequirementOpCode.tryFrom (opcodeRaw % 16777216)) fun op =>
    op.parsePayload (expressionFromBytesF fuel) (data.drop 4)

/-- Model of `CodeRequirementExpression::from_bytes`. -/
def expressionFromBytes (data : List Nat) :
    PResult (CodeRequirementExpression × List Nat) :=
  expressionFromBytesF (data.length + 1) data

/-- The loop body of `parse_code_requirements`: decode `n` expressions
sequentially, feeding each returned tail to the next decode. -/
def parseNExpressions : Nat → List Nat → PResult (List CodeRequirementExpression × List Nat)
  | 0, data => .ok ([], data)
  | n + 1, data =>
    PResult.bind (expressionFromBytes data) fun er =>
    PResult.bind (parseNExpressions n er.2) fun esr =>
    .ok (er.1 :: esr.1, esr.2)

/-- Model of `parse_code_requirements`: big-endian `u32` count, then that many
expressions decoded from `&data[4..]`. -/
def parseCodeRequirements (data : List Nat) :
    PResult (List CodeRequirementExpression × List Nat) :=
  PResult.bind (preadU32BE data) fun count =>
  parseNExpressions count (data.drop 4)

/-- Sequential-decoding chain: `DecodesSeq d es t` says the expressions `es`
decode one after another starting from input `d`, each consuming a prefix and
handing its tail to the next, ending with tail `t`. -/
inductive DecodesSeq : List Nat → List CodeRequirementExpression → List Nat → Prop where
  | nil : ∀ d, DecodesSeq d [] d
  | cons : ∀ d e d2 es t, expressionFromBytes d = .ok (e, d2) →
      DecodesSeq d2 es t → DecodesSeq d (e :: es) t

/-! ## Helper lemmas -/

/-- A well-formed padded block (length word, payload, alignment padding) parses
to its payload with the bytes after the padding as tail. -/
theorem readData_append (l0 l1 l2 l3 : Nat) (v pad rest : List Nat)
    (hL : v.length = l0 * 16777216 + l1 * 65536 + l2 * 256 + l3)
    (hpad : pad.length = (4 - (4 + v.length) % 4) % 4) :
    readData (l0 :: l1 :: l2 :: l3 :: (v ++ pad ++ rest)) = .ok (v, rest) := by
  have hvalue : ((l0 :: l1 :: l2 :: l3 :: (v ++ pad ++ rest)).drop 4).take v.length = v := by
    show (v ++ pad ++ rest).take v.length = v
    rw [List.append_assoc, List.take_left]
  have htail : ∀ n, n = 4 + v.length + pad.length →
      (l0 :: l1 :: l2 :: l3 :: (v ++ pad ++ rest)).drop n = rest := by
    intro n hn
    have h2 : l0 :: l1 :: l2 :: l3 :: (v ++ pad ++ rest)
        = ([l0, l1, l2, l3] ++ v ++ pad) ++ rest := by simp
    rw [h2]
    refine List.drop_left' ?_
    simp only [List.length_append, List.length_cons, List.length_nil]
    omega
  have hlen : (l0 :: l1 :: l2 :: l3 :: (v ++ pad ++ rest)).length
      = 4 + v.length + pad.length + rest.length := by
    simp only [List.length_append, List.length_cons]
    omega
  simp only [readData, preadU32BE, PResult.bind_ok, ← hL, hlen]
  by_cases h4 : (4 + v.length) % 4 = 0
  · rw [if_neg (by omega), if_pos h4, if_neg (by omega), hvalue,
      htail (4 + v.length) (by omega)]
  · rw [if_neg (by omega), if_neg h4, if_neg (by omega), hvalue,
      htail (4 + v.length + (4 - (4 + v.length) % 4)) (by omega)]

/-- Successful n-fold decoding yields exactly n expressions, chained
sequentially through the intermediate tails. -/
theorem parseNExpressions_chain (n : Nat) :
    ∀ (d : List Nat) (es : List CodeRequirementExpression) (t : List Nat),
      parseNExpressions n d = .ok (es, t) → es.length = n ∧ DecodesSeq d es t := by
  induction n with
  | zero =>
    intro d es t h
    unfold parseNExpressions at h
    obtain ⟨rfl, rfl⟩ : ([] : List CodeRequirementExpression) = es ∧ d = t := by
      cases h
      exact ⟨rfl, rfl⟩
    exact ⟨rfl, .nil d⟩
  | succ n ih =>
    intro d es t h
    unfold parseNExpressions at h
    cases he : expressionFromBytes d with
    | panic => rw [he] at h; exact PResult.noConfusion h
    | error e => rw [he] at h; exact PResult.noConfusion h
    | ok er =>
      rw [he, PResult.bind_ok] at h
      cases hn : parseNExpressions n er.2 with
      | panic => rw [hn] at h; exact PResult.noConfusion h
      | error e => rw [hn] at h; exact PResult.noConfusion h
      | ok esr =>
        rw [hn, PResult.bind_ok] at h
        obtain ⟨rfl, rfl⟩ : er.1 :: esr.1 = es ∧ esr.2 = t := by
          cases h
          exact ⟨rfl, rfl⟩
        obtain ⟨hlen, hseq⟩ := ih er.2 esr.1 esr.2 hn
        refine ⟨by simp [hlen], ?_⟩
        exact DecodesSeq.cons d er.1 er.2 esr.1 esr.2 he hseq

/-! ## Claim theorems -/

/-- Claim C1: the claim states that on a slice of length at least 4 but
shorter than `4 + L` the block reader returns a `Truncated` error by value and
never panics, and likewise for the `AnchorCertificateHash` payload reader on
slices shorter than `8 + digest_length`.  The code instead evaluates
`&data[4..4 + L]` (resp. `&data[8..8 + digest_length]`), which panics with a
slice-index-out-of-range on exactly those inputs; this theorem exhibits the
panic on concrete failing inputs, both at the readers and through
`decode_expression`. -/
theorem C1_truncated_input_panics :
    readData [0, 0, 0, 5] = .panic ∧
    anchorCertificateHashPayload [255, 255, 255, 255, 0, 0, 0, 20] = .panic ∧
    expressionFromBytes [0, 0, 0, 2, 0, 0, 0, 5, 97] = .panic ∧
    expressionFromBytes [0, 0, 0, 4, 255, 255, 255, 255, 0, 0, 0, 20] = .panic := by
  decide

/-- Claim C2 (counterexample): for a `CodeDirectoryHash` expression with a
1-byte digest, the decoder does not resume immediately after the digest byte:
it skips three alignment padding bytes.  On the input below the digest is
`[170]` and the returned tail is `[238]`, not `[187, 204, 221, 238]` as the
claim requires. -/
theorem C2_counterexample :
    expressionFromBytes [0, 0, 0, 8, 0, 0, 0, 1, 170, 187, 204, 221, 238]
      = .ok (.codeDirectoryHash [170], [238]) ∧
    ¬ expressionFromBytes [0, 0, 0, 8, 0, 0, 0, 1, 170, 187, 204, 221, 238]
      = .ok (.codeDirectoryHash [170], [187, 204, 221, 238]) := by
  decide

/-- Claim C2 (amended): a `CodeDirectoryHash` digest is read through the
padded block reader `read_data`: the decoder consumes the 4-byte length word,
the `L` digest bytes, and then alignment padding up to the next 4-byte
boundary, so the returned tail begins `4 + L` rounded up to a multiple of 4
bytes after the opcode payload starts. -/
theorem C2_codeDirectoryHash_padded (l0 l1 l2 l3 : Nat) (v pad rest : List Nat)
    (hL : v.length = l0 * 16777216 + l1 * 65536 + l2 * 256 + l3)
    (hpad : pad.length = (4 - (4 + v.length) % 4) % 4) :
    expressionFromBytes (0 :: 0 :: 0 :: 8 :: l0 :: l1 :: l2 :: l3 :: (v ++ pad ++ rest))
      = .ok (.codeDirectoryHash v, rest) := by
  have step : expressionFromBytes (0 :: 0 :: 0 :: 8 :: l0 :: l1 :: l2 :: l3 :: (v ++ pad ++ rest))
      = PResult.bind (readData (l0 :: l1 :: l2 :: l3 :: (v ++ pad ++ rest)))
          (fun vr => .ok (.codeDirectoryHash vr.1, vr.2)) := rfl
  rw [step, readData_append l0 l1 l2 l3 v pad rest hL hpad, PResult.bind_ok]

/-- Witness for the amended C2 theorem at a concrete input with `L = 1`
(three padding bytes consumed). -/
theorem C2_codeDirectoryHash_padded_witness :
    expressionFromBytes (0 :: 0 :: 0 :: 8 :: 0 :: 0 :: 0 :: 1 :: ([170] ++ [0, 0, 0] ++ [238]))
      = .ok (.codeDirectoryHash [170], [238]) :=
  C2_codeDirectoryHash_padded 0 0 0 1 [170] [0, 0, 0] [238] (by decide) (by decide)

/-- Claim C3: an `AnchorCertificateHash` expression consists of the opcode
word, a signed 32-bit slot, a `u32` digest length `L`, and exactly `L` raw
digest bytes with no alignment padding: the returned tail begins immediately
after the digest.  The spec's concrete vector decodes to
`AnchorCertificateHash(-1, 20 bytes of 0xdeadbeef...)` with empty tail. -/
theorem C3_anchorCertificateHash_unpadded :
    (∀ (s0 s1 s2 s3 l0 l1 l2 l3 : Nat) (digest rest : List Nat),
      digest.length = l0 * 16777216 + l1 * 65536 + l2 * 256 + l3 →
      expressionFromBytes (0 :: 0 :: 0 :: 4 :: s0 :: s1 :: s2 :: s3 :: l0 :: l1 :: l2 :: l3
          :: (digest ++ rest))
        = .ok (.anchorCertificateHash
            (i32FromBE (s0 * 16777216 + s1 * 65536 + s2 * 256 + s3)) digest, rest)) ∧
    parseCodeRequirements ([0, 0, 0, 1, 0, 0, 0, 4, 255, 255, 255, 255, 0, 0, 0, 20]
        ++ [222, 173, 190, 239, 222, 173, 190, 239, 222, 173, 190, 239, 222, 173, 190, 239,
            222, 173, 190, 239])
      = .ok ([.anchorCertificateHash (-1)
          [222, 173, 190, 239, 222, 173, 190, 239, 222, 173, 190, 239, 222, 173, 190, 239,
           222, 173, 190, 239]], []) := by
  constructor
  · intro s0 s1 s2 s3 l0 l1 l2 l3 digest rest hL
    have step : expressionFromBytes (0 :: 0 :: 0 :: 4 :: s0 :: s1 :: s2 :: s3 :: l0 :: l1
          :: l2 :: l3 :: (digest ++ rest))
        = anchorCertificateHashPayload (s0 :: s1 :: s2 :: s3 :: l0 :: l1 :: l2 :: l3
            :: (digest ++ rest)) := rfl
    have hdrop8 : (s0 :: s1 :: s2 :: s3 :: l0 :: l1 :: l2 :: l3 :: (digest ++ rest)).drop 8
        = digest ++ rest := rfl
    have htail : (s0 :: s1 :: s2 :: s3 :: l0 :: l1 :: l2 :: l3 :: (digest ++ rest)).drop
          (8 + digest.length) = rest := by
      have h2 : s0 :: s1 :: s2 :: s3 :: l0 :: l1 :: l2 :: l3 :: (digest ++ rest)
          = ([s0, s1, s2, s3, l0, l1, l2, l3] ++ digest) ++ rest := by simp
      rw [h2]
      refine List.drop_left' ?_
      simp only [List.length_append, List.length_cons, List.length_nil]
      try omega
    have hlen : (s0 :: s1 :: s2 :: s3 :: l0 :: l1 :: l2 :: l3 :: (digest ++ rest)).length
        = 8 + digest.length + rest.length := by
      simp only [List.length_append, List.length_cons]
      omega
    have hdrop4 : (s0 :: s1 :: s2 :: s3 :: l0 :: l1 :: l2 :: l3 :: (digest ++ rest)).drop 4
        = l0 :: l1 :: l2 :: l3 :: (digest ++ rest) := rfl
    rw [step]
    simp only [anchorCertificateHashPayload, preadI32BE, PResult.bind_ok, hdrop4, preadU32BE,
      ← hL, hlen, hdrop8]
    rw [if_neg (by omega), List.take_left, htail]
  · decide

/-- Witness for the universally quantified part of C3 at a 1-byte digest: the
tail begins immediately after the digest byte, with no padding. -/
theorem C3_anchorCertificateHash_unpadded_witness :
    expressionFromBytes (0 :: 0 :: 0 :: 4 :: 255 :: 255 :: 255 :: 255 :: 0 :: 0 :: 0 :: 1
        :: ([222] ++ [9]))
      = .ok (.anchorCertificateHash
          (i32FromBE (255 * 16777216 + 255 * 65536 + 255 * 256 + 255)) [222], [9]) :=
  C3_anchorCertificateHash_unpadded.1 255 255 255 255 0 0 0 1 [222] [9] (by decide)

/-- Claim C4: the high flag byte of the leading opcode word is read but has no
effect on the outcome of `decode_expression`: two inputs that are identical
except for that byte produce the same result (same expression and tail, or the
same error, or both panic), because dispatch uses only the low 24 bits of the
opcode word. -/
theorem C4_flag_byte_ignored (b b' r0 r1 r2 : Nat) (rest : List Nat)
    (h0 : r0 < 256) (h1 : r1 < 256) (h2 : r2 < 256) :
    expressionFromBytes (b :: r0 :: r1 :: r2 :: rest)
      = expressionFromBytes (b' :: r0 :: r1 :: r2 :: rest) := by
  have key : ∀ x : Nat, expressionFromBytes (x :: r0 :: r1 :: r2 :: rest)
      = PResult.bind (RequirementOpCode.tryFrom (r0 * 65536 + r1 * 256 + r2))
          (fun op => op.parsePayload (expressionFromBytesF (rest.length + 4)) rest) := by
    intro x
    have step : expressionFromBytes (x :: r0 :: r1 :: r2 :: rest)
        = PResult.bind
            (RequirementOpCode.tryFrom ((x * 16777216 + r0 * 65536 + r1 * 256 + r2) % 16777216))
            (fun op => op.parsePayload (expressionFromBytesF (rest.length + 4)) rest) := rfl
    have hm : (x * 16777216 + r0 * 65536 + r1 * 256 + r2) % 16777216
        = r0 * 65536 + r1 * 256 + r2 := by omega
    rw [step, hm]
  rw [key b, key b']

/-- Witness for C4: flipping the flag byte from 0x40 to 0x00 leaves the decode
of a True expression unchanged. -/
theorem C4_flag_byte_ignored_witness :
    expressionFromBytes [64, 0, 0, 1] = expressionFromBytes [0, 0, 0, 1] :=
  C4_flag_byte_ignored 64 0 0 0 1 [] (by decide) (by decide) (by decide)

/-- Values outside the known opcode range are rejected by
`RequirementOpCode::try_from`. -/
theorem requirementOpCodeTryFrom_unknown (v : Nat) (h : 23 < v) :
    RequirementOpCode.tryFrom v = .error (.unknownOpCode v) := by
  unfold RequirementOpCode.tryFrom
  rw [if_neg (by omega : ¬v = 0), if_neg (by omega : ¬v = 1), if_neg (by omega : ¬v = 2),
    if_neg (by omega : ¬v = 3), if_neg (by omega : ¬v = 4), if_neg (by omega : ¬v = 5),
    if_neg (by omega : ¬v = 6), if_neg (by omega : ¬v = 7), if_neg (by omega : ¬v = 8),
    if_neg (by omega : ¬v = 9), if_neg (by omega : ¬v = 10), if_neg (by omega : ¬v = 11),
    if_neg (by omega : ¬v = 12), if_neg (by omega : ¬v = 13), if_neg (by omega : ¬v = 14),
    if_neg (by omega : ¬v = 15), if_neg (by omega : ¬v = 16), if_neg (by omega : ¬v = 17),
    if_neg (by omega : ¬v = 18), if_neg (by omega : ¬v = 19), if_neg (by omega : ¬v = 20),
    if_neg (by omega : ¬v = 21), if_neg (by omega : ¬v = 22), if_neg (by omega : ¬v = 23)]

/-- Values outside the known match-type range are rejected by
`MatchType::try_from`. -/
theorem matchTypeTryFrom_unknown (v : Nat) (h : 14 < v) :
    MatchType.tryFrom v = .error (.unknownMatch v) := by
  unfold MatchType.tryFrom
  rw [if_neg (by omega : ¬v = 0), if_neg (by omega : ¬v = 1), if_neg (by omega : ¬v = 2),
    if_neg (by omega : ¬v = 3), if_neg (by omega : ¬v = 4), if_neg (by omega : ¬v = 5),
    if_neg (by omega : ¬v = 6), if_neg (by omega : ¬v = 7), if_neg (by omega : ¬v = 8),
    if_neg (by omega : ¬v = 9), if_neg (by omega : ¬v = 10), if_neg (by omega : ¬v = 11),
    if_neg (by omega : ¬v = 12), if_neg (by omega : ¬v = 13), if_neg (by omega : ¬v = 14)]

/-- Claim C5: an opcode word whose low 24 bits fall outside `0..=23` makes
`decode_expression` fail with `UnknownOpCode` carrying that 24-bit value, and a
match-type word outside `0..=14` makes `decode_match_expression` fail with
`UnknownMatch` carrying the full 32-bit value; in both cases only the error is
returned — no expression and no tail. -/
theorem C5_unknown_codes :
    (∀ (b0 b1 b2 b3 : Nat) (rest : List Nat),
      23 < (b0 * 16777216 + b1 * 65536 + b2 * 256 + b3) % 16777216 →
      expressionFromBytes (b0 :: b1 :: b2 :: b3 :: rest)
        = .error (.unknownOpCode ((b0 * 16777216 + b1 * 65536 + b2 * 256 + b3) % 16777216))) ∧
    (∀ (b0 b1 b2 b3 : Nat) (rest : List Nat),
      14 < b0 * 16777216 + b1 * 65536 + b2 * 256 + b3 →
      matchExpressionFromBytes (b0 :: b1 :: b2 :: b3 :: rest)
        = .error (.unknownMatch (b0 * 16777216 + b1 * 65536 + b2 * 256 + b3))) := by
  constructor
  · intro b0 b1 b2 b3 rest h
    have step : expressionFromBytes (b0 :: b1 :: b2 :: b3 :: rest)
        = PResult.bind
            (RequirementOpCode.tryFrom ((b0 * 16777216 + b1 * 65536 + b2 * 256 + b3) % 16777216))
            (fun op => op.parsePayload (expressionFromBytesF (rest.length + 4)) rest) := rfl
    rw [step, requirementOpCodeTryFrom_unknown _ h, PResult.bind_error]
  · intro b0 b1 b2 b3 rest h
    have step : matchExpressionFromBytes (b0 :: b1 :: b2 :: b3 :: rest)
        = PResult.bind (MatchType.tryFrom (b0 * 16777216 + b1 * 65536 + b2 * 256 + b3))
            (fun t => t.parsePayload rest) := rfl
    rw [step, matchTypeTryFrom_unknown _ h, PResult.bind_error]

/-- Witness for C5 at the spec's negative vectors: opcode word `0x00ffffff`
and match word `0x000000ff`. -/
theorem C5_unknown_codes_witness :
    expressionFromBytes [0, 255, 255, 255] = .error (.unknownOpCode 16777215) ∧
    matchExpressionFromBytes [0, 0, 0, 255] = .error (.unknownMatch 255) := by
  constructor
  · have h := C5_unknown_codes.1 0 255 255 255 [] (by decide)
    norm_num at h
    exact h
  · have h := C5_unknown_codes.2 0 0 0 255 [] (by decide)
    norm_num at h
    exact h

/-- Claim C6: the value classifier is total and never fails: it returns
`String` holding the same bytes exactly when every byte is ASCII alphanumeric,
ASCII whitespace, or ASCII punctuation, and `Bytes` of the same bytes
otherwise; the empty block is classified as `String`. -/
theorem C6_value_classifier (v : List Nat) :
    (CodeRequirementValue.fromBytes v = .string v
      ↔ ∀ b ∈ v, (isAsciiAlphanumeric b || isAsciiWhitespace b || isAsciiPunctuation b)
          = true) ∧
    (CodeRequirementValue.fromBytes v = .bytes v
      ↔ ¬ ∀ b ∈ v, (isAsciiAlphanumeric b || isAsciiWhitespace b || isAsciiPunctuation b)
          = true) ∧
    CodeRequirementValue.fromBytes ([] : List Nat) = .string [] := by
  have hall : (v.all isAsciiPrintable = true)
      ↔ ∀ b ∈ v, (isAsciiAlphanumeric b || isAsciiWhitespace b || isAsciiPunctuation b)
          = true := by
    rw [List.all_eq_true]
    unfold isAsciiPrintable
    exact Iff.rfl
  refine ⟨?_, ?_, rfl⟩
  · unfold CodeRequirementValue.fromBytes
    by_cases hc : v.all isAsciiPrintable = true
    · rw [if_pos hc]
      exact iff_of_true rfl (hall.mp hc)
    · rw [if_neg hc]
      exact iff_of_false (fun he => CodeRequirementValue.noConfusion he)
        (fun hf => hc (hall.mpr hf))
  · unfold CodeRequirementValue.fromBytes
    by_cases hc : v.all isAsciiPrintable = true
    · rw [if_pos hc]
      exact iff_of_false (fun he => CodeRequirementValue.noConfusion he)
        (fun hn => hn (hall.mp hc))
    · rw [if_neg hc]
      exact iff_of_true rfl (fun hf => hc (hall.mpr hf))

/-- Claim C7: when `read_data` succeeds, the payload is exactly the `L` bytes
after the length word and the tail starts `4 + L + ((−(4 + L)) mod 4)` bytes
into the block, i.e. `4 + L` rounded up to the next multiple of 4; in
particular no padding when `4 + L` is a multiple of 4 and three padding bytes
when `L ≡ 1 (mod 4)`. -/
theorem C7_readData_alignment (data : List Nat) (L : Nat) (v r : List Nat)
    (hpread : preadU32BE data = .ok L)
    (hok : readData data = .ok (v, r)) :
    v = (data.drop 4).take L ∧ v.length = L ∧
    r = data.drop (4 + L + ((-(4 + L : Int)) % 4).toNat) ∧
    ((4 + L) % 4 = 0 → r = data.drop (4 + L)) ∧
    (L % 4 = 1 → r = data.drop (4 + L + 3)) := by
  unfold readData at hok
  rw [hpread, PResult.bind_ok] at hok
  by_cases hshort : data.length < 4 + L
  · rw [if_pos hshort] at hok
    exact PResult.noConfusion hok
  · rw [if_neg hshort] at hok
    by_cases h4 : (4 + L) % 4 = 0
    · rw [if_pos h4, if_neg hshort] at hok
      obtain ⟨rfl, rfl⟩ : (data.drop 4).take L = v ∧ data.drop (4 + L) = r := by
        cases hok
        exact ⟨rfl, rfl⟩
      have hmod : ((-(4 + L : Int)) % 4).toNat = 0 := by omega
      refine ⟨rfl, ?_, by rw [hmod, Nat.add_zero], fun _ => rfl,
        fun h1 => absurd h4 (by omega)⟩
      rw [List.length_take, List.length_drop]
      omega
    · rw [if_neg h4] at hok
      by_cases hshort2 : data.length < 4 + L + (4 - (4 + L) % 4)
      · rw [if_pos hshort2] at hok
        exact PResult.noConfusion hok
      · rw [if_neg hshort2] at hok
        obtain ⟨rfl, rfl⟩ :
            (data.drop 4).take L = v ∧ data.drop (4 + L + (4 - (4 + L) % 4)) = r := by
          cases hok
          exact ⟨rfl, rfl⟩
        have hmod : ((-(4 + L : Int)) % 4).toNat = 4 - (4 + L) % 4 := by omega
        refine ⟨rfl, ?_, by rw [hmod], fun h0 => absurd h0 h4, fun h1 => ?_⟩
        · rw [List.length_take, List.length_drop]
          omega
        · have hpad3 : 4 + L + (4 - (4 + L) % 4) = 4 + L + 3 := by omega
          rw [hpad3]

/-- Witness for C7 at a block with `L = 1` (three padding bytes): payload `[9]`
is the byte after the length word, and the tail `[7]` starts 8 bytes in. -/
theorem C7_readData_alignment_witness :
    [9] = (([0, 0, 0, 1, 9, 0, 0, 0, 7] : List Nat).drop 4).take 1 ∧
    ([9] : List Nat).length = 1 ∧
    [7] = ([0, 0, 0, 1, 9, 0, 0, 0, 7] : List Nat).drop (4 + 1 + ((-(4 + 1 : Int)) % 4).toNat) ∧
    ((4 + 1) % 4 = 0 → [7] = ([0, 0, 0, 1, 9, 0, 0, 0, 7] : List Nat).drop (4 + 1)) ∧
    (1 % 4 = 1 → [7] = ([0, 0, 0, 1, 9, 0, 0, 0, 7] : List Nat).drop (4 + 1 + 3)) :=
  C7_readData_alignment [0, 0, 0, 1, 9, 0, 0, 0, 7] 1 [9] [7] (by decide) (by decide)

/-- Claim C8: `decode_requirements` reads a big-endian u32 count `N` and then
decodes exactly `N` expressions sequentially, each consuming a prefix of the
remaining bytes and passing its tail on; a success returns the `N` decoded
expressions together with the unconsumed tail, and the 4-byte count-0 input
returns an empty vector and empty tail. -/
theorem C8_decode_list :
    (∀ (data : List Nat) (n : Nat) (es : List CodeRequirementExpression) (t : List Nat),
      preadU32BE data = .ok n → parseCodeRequirements data = .ok (es, t) →
      es.length = n ∧ DecodesSeq (data.drop 4) es t) ∧
    parseCodeRequirements [0, 0, 0, 0] = .ok ([], []) := by
  constructor
  · intro data n es t hn hp
    unfold parseCodeRequirements at hp
    rw [hn, PResult.bind_ok] at hp
    exact parseNExpressions_chain n (data.drop 4) es t hp
  · decide

/-- Witness for C8: the count-1 list `[False]` decodes with a length-1 result
chained through one expression decode. -/
theorem C8_decode_list_witness :
    ([CodeRequirementExpression.falseExpr].length = 1
      ∧ DecodesSeq (([0, 0, 0, 1, 0, 0, 0, 0] : List Nat).drop 4)
          [CodeRequirementExpression.falseExpr] []) :=
  C8_decode_list.1 [0, 0, 0, 1, 0, 0, 0, 0] 1 [.falseExpr] [] (by decide) (by decide)

/-- Claim C9: every identifier, key, and name field the format specifies as
text is validated as UTF-8, and a violation yields the corresponding
`Malformed` decode failure with no partial result: Identifier (opcode 2),
the InfoKeyValueLegacy key (5), the InfoPlist key (10), the certificate field
name (11), the entitlements key (16), NamedAnchor (18), and NamedCode (19). -/
theorem C9_utf8_required :
    (∀ (d v r : List Nat), readData d = .ok (v, r) → validUtf8 v = false →
      expressionFromBytes (0 :: 0 :: 0 :: 2 :: d)
        = .error (.malformed "identifier value not a UTF-8 string")) ∧
    (∀ (d v r : List Nat), readData d = .ok (v, r) → validUtf8 v = false →
      expressionFromBytes (0 :: 0 :: 0 :: 5 :: d)
        = .error (.malformed "info key not a UTF-8 string")) ∧
    (∀ (d v r : List Nat), readData d = .ok (v, r) → validUtf8 v = false →
      expressionFromBytes (0 :: 0 :: 0 :: 10 :: d)
        = .error (.malformed "key is not valid UTF-8")) ∧
    (∀ (s0 s1 s2 s3 : Nat) (d v r : List Nat), readData d = .ok (v, r) → validUtf8 v = false →
      expressionFromBytes (0 :: 0 :: 0 :: 11 :: s0 :: s1 :: s2 :: s3 :: d)
        = .error (.malformed "certificate field is not valid UTF-8")) ∧
    (∀ (d v r : List Nat), readData d = .ok (v, r) → validUtf8 v = false →
      expressionFromBytes (0 :: 0 :: 0 :: 16 :: d)
        = .error (.malformed "entitlement key is not UTF-8")) ∧
    (∀ (d v r : List Nat), readData d = .ok (v, r) → validUtf8 v = false →
      expressionFromBytes (0 :: 0 :: 0 :: 18 :: d)
        = .error (.malformed "named anchor isn\x27t UTF-8")) ∧
    (∀ (d v r : List Nat), readData d = .ok (v, r) → validUtf8 v = false →
      expressionFromBytes (0 :: 0 :: 0 :: 19 :: d)
        = .error (.malformed "named code isn\x27t UTF-8")) := by
  refine ⟨?_, ?_, ?_, ?_, ?_, ?_, ?_⟩
  · intro d v r hrd hv
    have step : expressionFromBytes (0 :: 0 :: 0 :: 2 :: d)
        = PResult.bind (readData d) (fun vr =>
            if validUtf8 vr.1 then .ok (.identifier vr.1, vr.2)
            else .error (.malformed "identifier value not a UTF-8 string")) := rfl
    rw [step, hrd, PResult.bind_ok]
    simp [hv]
  · intro d v r hrd hv
    have step : expressionFromBytes (0 :: 0 :: 0 :: 5 :: d)
        = PResult.bind (readData d) (fun kr =>
            if validUtf8 kr.1 then
              PResult.bind (readData kr.2) fun vr =>
              if validUtf8 vr.1 then .ok (.infoKeyValueLegacy kr.1 vr.1, vr.2)
              else .error (.malformed "info value not a UTF-8 string")
            else .error (.malformed "info key not a UTF-8 string")) := rfl
    rw [step, hrd, PResult.bind_ok]
    simp [hv]
  · intro d v r hrd hv
    have step : expressionFromBytes (0 :: 0 :: 0 :: 10 :: d)
        = PResult.bind (readData d) (fun kr =>
            if validUtf8 kr.1 then
              PResult.bind (matchExpressionFromBytes kr.2) fun mr =>
              .ok (.infoPlistKeyField kr.1 mr.1, mr.2)
            else .error (.malformed "key is not valid UTF-8")) := rfl
    rw [step, hrd, PResult.bind_ok]
    simp [hv]
  · intro s0 s1 s2 s3 d v r hrd hv
    have step : expressionFromBytes (0 :: 0 :: 0 :: 11 :: s0 :: s1 :: s2 :: s3 :: d)
        = PResult.bind (readData d) (fun fr =>
            if validUtf8 fr.1 then
              PResult.bind (matchExpressionFromBytes fr.2) fun mr =>
              .ok (.certificateField (i32FromBE (s0 * 16777216 + s1 * 65536 + s2 * 256 + s3))
                fr.1 mr.1, mr.2)
            else .error (.malformed "certificate field is not valid UTF-8")) := rfl
    rw [step, hrd, PResult.bind_ok]
    simp [hv]
  · intro d v r hrd hv
    have step : expressionFromBytes (0 :: 0 :: 0 :: 16 :: d)
        = PResult.bind (readData d) (fun kr =>
            if validUtf8 kr.1 then
              PResult.bind (matchExpressionFromBytes kr.2) fun mr =>
              .ok (.entitlementsKey kr.1 mr.1, mr.2)
            else .error (.malformed "entitlement key is not UTF-8")) := rfl
    rw [step, hrd, PResult.bind_ok]
    simp [hv]
  · intro d v r hrd hv
    have step : expressionFromBytes (0 :: 0 :: 0 :: 18 :: d)
        = PResult.bind (readData d) (fun nr =>
            if validUtf8 nr.1 then .ok (.namedAnchor nr.1, nr.2)
            else .error (.malformed "named anchor isn\x27t UTF-8")) := rfl
    rw [step, hrd, PResult.bind_ok]
    simp [hv]
  · intro d v r hrd hv
    have step : expressionFromBytes (0 :: 0 :: 0 :: 19 :: d)
        = PResult.bind (readData d) (fun nr =>
            if validUtf8 nr.1 then .ok (.namedCode nr.1, nr.2)
            else .error (.malformed "named code isn\x27t UTF-8")) := rfl
    rw [step, hrd, PResult.bind_ok]
    simp [hv]

/-- Witness for C9: a 2-byte `0xffff` payload (invalid UTF-8) is rejected by
each of the seven text fields with its `Malformed` message. -/
theorem C9_utf8_required_witness :
    expressionFromBytes [0, 0, 0, 2, 0, 0, 0, 2, 255, 255, 0, 0]
      = .error (.malformed "identifier value not a UTF-8 string") ∧
    expressionFromBytes [0, 0, 0, 5, 0, 0, 0, 2, 255, 255, 0, 0]
      = .error (.malformed "info key not a UTF-8 string") ∧
    expressionFromBytes [0, 0, 0, 10, 0, 0, 0, 2, 255, 255, 0, 0]
      = .error (.malformed "key is not valid UTF-8") ∧
    expressionFromBytes [0, 0, 0, 11, 255, 255, 255, 255, 0, 0, 0, 2, 255, 255, 0, 0]
      = .error (.malformed "certificate field is not valid UTF-8") ∧
    expressionFromBytes [0, 0, 0, 16, 0, 0, 0, 2, 255, 255, 0, 0]
      = .error (.malformed "entitlement key is not UTF-8") ∧
    expressionFromBytes [0, 0, 0, 18, 0, 0, 0, 2, 255, 255, 0, 0]
      = .error (.malformed "named anchor isn\x27t UTF-8") ∧
    expressionFromBytes [0, 0, 0, 19, 0, 0, 0, 2, 255, 255, 0, 0]
      = .error (.malformed "named code isn\x27t UTF-8") :=
  ⟨C9_utf8_required.1 [0, 0, 0, 2, 255, 255, 0, 0] [255, 255] [] (by decide) (by decide),
   C9_utf8_required.2.1 [0, 0, 0, 2, 255, 255, 0, 0] [255, 255] [] (by decide) (by decide),
   C9_utf8_required.2.2.1 [0, 0, 0, 2, 255, 255, 0, 0] [255, 255] [] (by decide) (by decide),
   C9_utf8_required.2.2.2.1 255 255 255 255 [0, 0, 0, 2, 255, 255, 0, 0] [255, 255] []
     (by decide) (by decide),
   C9_utf8_required.2.2.2.2.1 [0, 0, 0, 2, 255, 255, 0, 0] [255, 255] [] (by decide) (by decide),
   C9_utf8_required.2.2.2.2.2.1 [0, 0, 0, 2, 255, 255, 0, 0] [255, 255] []
     (by decide) (by decide),
   C9_utf8_required.2.2.2.2.2.2 [0, 0, 0, 2, 255, 255, 0, 0] [255, 255] []
     (by decide) (by decide)⟩

/-- Claim C10: the timestamp match expressions (codes 9 through 13) convert
the signed 64-bit seconds value with `chrono::Utc.timestamp`, which is not
total over `i64`: for every such code, a well-formed input whose seconds value
lies outside the representable datetime range makes the decoder panic rather
than return an error by value or clamp. -/
theorem C10_timestamp_panics :
    ∀ (c : Nat), (c = 9 ∨ c = 10 ∨ c = 11 ∨ c = 12 ∨ c = 13) →
    ∀ (d : List Nat) (s : Int), preadI64BE d = .ok s →
    (s < chronoMinSecs ∨ chronoMaxSecs < s) →
    matchExpressionFromBytes (0 :: 0 :: 0 :: c :: d) = .panic := by
  intro c hc d s hs hrange
  have hts : chronoUtcTimestamp s = none := by
    unfold chronoUtcTimestamp
    rw [if_neg]
    simp only [Bool.and_eq_true, decide_eq_true_eq, not_and]
    unfold chronoMinSecs chronoMaxSecs at hrange ⊢
    intro h1
    rcases hrange with h | h
    · omega
    · omega
  rcases hc with rfl | rfl | rfl | rfl | rfl
  · have step : matchExpressionFromBytes (0 :: 0 :: 0 :: 9 :: d)
        = PResult.bind (preadI64BE d) (fun value =>
            match chronoUtcTimestamp value with
            | some dt => .ok (.on dt, d.drop 8)
            | none => .panic) := rfl
    rw [step, hs, PResult.bind_ok, hts]
  · have step : matchExpressionFromBytes (0 :: 0 :: 0 :: 10 :: d)
        = PResult.bind (preadI64BE d) (fun value =>
            match chronoUtcTimestamp value with
            | some dt => .ok (.before dt, d.drop 8)
            | none => .panic) := rfl
    rw [step, hs, PResult.bind_ok, hts]
  · have step : matchExpressionFromBytes (0 :: 0 :: 0 :: 11 :: d)
        = PResult.bind (preadI64BE d) (fun value =>
            match chronoUtcTimestamp value with
            | some dt => .ok (.after dt, d.drop 8)
            | none => .panic) := rfl
    rw [step, hs, PResult.bind_ok, hts]
  · have step : matchExpressionFromBytes (0 :: 0 :: 0 :: 12 :: d)
        = PResult.bind (preadI64BE d) (fun value =>
            match chronoUtcTimestamp value with
            | some dt => .ok (.onOrBefore dt, d.drop 8)
            | none => .panic) := rfl
    rw [step, hs, PResult.bind_ok, hts]
  · have step : matchExpressionFromBytes (0 :: 0 :: 0 :: 13 :: d)
        = PResult.bind (preadI64BE d) (fun value =>
            match chronoUtcTimestamp value with
            | some dt => .ok (.onOrAfter dt, d.drop 8)
            | none => .panic) := rfl
    rw [step, hs, PResult.bind_ok, hts]

/-- Witness for C10: an On match expression carrying `i64::MAX` seconds
panics. -/
theorem C10_timestamp_panics_witness :
    matchExpressionFromBytes [0, 0, 0, 9, 127, 255, 255, 255, 255, 255, 255, 255] = .panic :=
  C10_timestamp_panics 9 (Or.inl rfl) [127, 255, 255, 255, 255, 255, 255, 255]
    9223372036854775807 (by decide) (by decide)
